import Mathlib

/-!
Shallow embedding of the e-commerce data generator
(`src/data_generator.py`) and proofs about its specification.

Randomness model: every call the Python code makes into the shared
`np.random` stream is modelled as an explicit draw passed in through a
`SessionDraws` / `OrderDraws` record, consumed in the order the code
draws them.  `uuid.uuid4()` does NOT read the seeded numpy stream, so
uuid-generated identifiers (`session_id`, `event_id`, `order_id`) are
modelled as a separate supply of strings, independent of the draws.

Numeric model: timestamps are rational numbers of seconds
(`datetime` + `timedelta(seconds=...)` arithmetic), prices are
rationals, `round(x, 2)` is round-to-nearest at two decimals (Python
rounds half-to-even on floats; the two agree away from exact `.005`
midpoints, and every concrete input used below is midpoint-free).
-/

namespace DataGen

/-- `N_PRODUCTS = 2000` from the configuration block. -/
def N_PRODUCTS : ℕ := 2000

/-- `MIN_PRICE = 9.99` from the configuration block. -/
def MIN_PRICE : ℚ := 999 / 100

/-- `MAX_PRICE = 999.99` from the configuration block. -/
def MAX_PRICE : ℚ := 99999 / 100

/-- `PRODUCT_CATEGORIES` from the configuration block. -/
def PRODUCT_CATEGORIES : List String := ["electronics", "fashion", "home", "beauty", "sports"]

/-- `np.random.randint(lo, hi)` applied to a raw draw `r`: a value in
`[lo, hi)` (for `lo < hi`), obtained by range reduction of the draw. -/
def randint (lo hi : ℕ) (r : ℕ) : ℕ := lo + r % (hi - lo)

/-- `np.random.choice(xs)` applied to a raw draw `r`: an element of
`xs` selected by the draw (`dflt` is returned only for empty `xs`,
which `np.random.choice` would reject). -/
def np_choice {α : Type} (xs : List α) (dflt : α) (r : ℕ) : α :=
  xs.getD (r % xs.length) dflt

/-- `get_product_category` (`src/data_generator.py` lines 82-92):
`None ↦ None`, otherwise index `(product_id - 1) % len(PRODUCT_CATEGORIES)`
into the fixed category list (Python `%` on ints is the nonnegative
remainder, as is `Int.emod` for a positive modulus). -/
def get_product_category : Option ℤ → Option String
  | none => none
  | some product_id =>
      PRODUCT_CATEGORIES.get? (((product_id - 1) % (PRODUCT_CATEGORIES.length : ℤ)).toNat)

/-- The `FUNNEL_PROBS` dictionary: one rational per funnel stage. -/
structure FunnelProbs where
  visit : ℚ
  product_view : ℚ
  add_to_cart : ℚ
  checkout : ℚ
  purchase : ℚ
  deriving DecidableEq

/-- `FUNNEL_PROBS` from the configuration block (lines 49-55). -/
def FUNNEL_PROBS : FunnelProbs :=
  { visit := 1                       -- 1.0
    product_view := 75 / 100         -- 0.75
    add_to_cart := 40 / 100          -- 0.40
    checkout := 30 / 100             -- 0.30
    purchase := 92 / 100 }           -- 0.92

/-- The per-user attribute dictionary (`user_info`) as consumed by
`simulate_user_session`: `device`, `is_bot`, `source` and the optional
`ab_variant` key (absent ↦ `none`). -/
structure UserInfo where
  device : String
  country : String
  is_bot : Bool
  loyalty_tier : String
  source : String
  ab_variant : Option String
  deriving DecidableEq

/-- One event row.  Keys a given Python dict omits (e.g.
`product_category` on `visit` and bot events, the A/B fields on
non-checkout events) surface as `NaN` in the events DataFrame and are
modelled as `none`. -/
structure Event where
  event_id : String
  user_id : ℤ
  session_id : Option String
  event_type : String
  page : String
  product_id : Option ℤ
  product_category : Option String
  ts : ℚ
  source : String
  device : String
  ab_test_id : Option String
  variant : Option String
  deriving DecidableEq

/-- The draws `simulate_user_session` takes from the `np.random`
stream, in consumption order.  Raw `ℕ` draws feed `randint` /
`choice`; `u_*` are `np.random.random()` values in `[0, 1)`; `*_gap`
are `np.random.exponential(...)` values (nonnegative). -/
structure SessionDraws where
  bot_n_events : ℕ
  bot_type : ℕ → ℕ
  bot_pid : ℕ → ℕ
  u_visit : ℚ
  visit_gap : ℚ
  u_view : ℚ
  n_views_pred : ℕ
  view_pid : ℕ → ℕ
  view_gap : ℚ
  u_cart : ℚ
  n_cart_pred : ℕ
  cart_choice : ℕ → ℕ
  cart_fallback_pid : ℕ → ℕ
  cart_gap : ℚ
  u_checkout : ℚ
  checkout_gap : ℚ
  u_purchase : ℚ

/-- Accumulated state of one simulated session: the `events` list and
`current_time`. -/
structure SimState where
  events : List Event
  t : ℚ
  deriving DecidableEq

/-- Bot branch of `simulate_user_session` (lines 196-212): `n_events`
draws of `choice(["visit", "product_view"])`, each with a random
`product_id`, timestamps `start_time + 5·i`, and no `product_category`
or A/B keys. -/
def bot_session_events (uid : ℤ) (info : UserInfo) (start_time : ℚ)
    (d : SessionDraws) (sid : String) (eid : ℕ → String) : List Event :=
  (List.range d.bot_n_events).map (fun i =>
    let event_type := np_choice ["visit", "product_view"] "visit" (d.bot_type i)
    { event_id := eid i
      user_id := uid
      session_id := some sid
      event_type := event_type
      page := if event_type = "product_view" then "product" else "home"
      product_id := some ((randint 1 (N_PRODUCTS + 1) (d.bot_pid i) : ℕ) : ℤ)
      product_category := none
      ts := start_time + 5 * (i : ℚ)
      source := info.source
      device := info.device
      ab_test_id := none
      variant := none })

/-- Stage 1 `visit` (lines 216-228): emitted iff the draw is below
`funnel_probs["visit"]`; `current_time` advances by an exponential gap
only when the event is emitted. -/
def stage_visit (uid : ℤ) (info : UserInfo) (start_time : ℚ) (probs : FunnelProbs)
    (d : SessionDraws) (sid : String) (eid : ℕ → String) : SimState :=
  if d.u_visit < probs.visit then
    { events := [{ event_id := eid 0
                   user_id := uid
                   session_id := some sid
                   event_type := "visit"
                   page := "home"
                   product_id := none
                   product_category := none
                   ts := start_time
                   source := info.source
                   device := info.device
                   ab_test_id := none
                   variant := none }]
      t := start_time + d.visit_gap }
  else { events := [], t := start_time }

/-- Stage 2 `product_view` (lines 231-247): gated on `events` being
nonempty; emits `poisson(3) + 1` views with timestamps
`current_time + 10·i` and the deterministic category mapping. -/
def stage_view (uid : ℤ) (info : UserInfo) (probs : FunnelProbs)
    (d : SessionDraws) (sid : String) (eid : ℕ → String) (st : SimState) : SimState :=
  if st.events ≠ [] ∧ d.u_view < probs.product_view then
    let n_views := d.n_views_pred + 1
    let views := (List.range n_views).map (fun i =>
      let product_id : ℤ := ((randint 1 (N_PRODUCTS + 1) (d.view_pid i) : ℕ) : ℤ)
      { event_id := eid (st.events.length + i)
        user_id := uid
        session_id := some sid
        event_type := "product_view"
        page := "product"
        product_id := some product_id
        product_category := get_product_category (some product_id)
        ts := st.t + 10 * (i : ℚ)
        source := info.source
        device := info.device
        ab_test_id := none
        variant := none })
    { events := st.events ++ views, t := st.t + d.view_gap }
  else st

/-- The list comprehension `[e["product_id"] for e in events if
e["event_type"] == "product_view"]` (line 253). -/
def viewed_products (events : List Event) : List (Option ℤ) :=
  (events.filter (fun e => e.event_type = "product_view")).map (fun e => e.product_id)

/-- Stage 3 `add_to_cart` (lines 250-272): gated on `len(events) > 1`;
emits `min(poisson(1.5) + 1, len(viewed_products))` cart events whose
`product_id` is `np.random.choice(viewed_products)` (the `randint`
fallback is the dead `else` branch for an empty viewed list). -/
def stage_cart (uid : ℤ) (info : UserInfo) (probs : FunnelProbs)
    (d : SessionDraws) (sid : String) (eid : ℕ → String) (st : SimState) : SimState :=
  if 1 < st.events.length ∧ d.u_cart < probs.add_to_cart then
    let n_cart_items := d.n_cart_pred + 1
    let viewed := viewed_products st.events
    let carts := (List.range (min n_cart_items viewed.length)).map (fun i =>
      let product_id : Option ℤ :=
        if viewed ≠ [] then np_choice viewed none (d.cart_choice i)
        else some ((randint 1 (N_PRODUCTS + 1) (d.cart_fallback_pid i) : ℕ) : ℤ)
      { event_id := eid (st.events.length + i)
        user_id := uid
        session_id := some sid
        event_type := "add_to_cart"
        page := "product"
        product_id := product_id
        product_category := get_product_category product_id
        ts := st.t + 5 * (i : ℚ)
        source := info.source
        device := info.device
        ab_test_id := none
        variant := none })
    { events := st.events ++ carts, t := st.t + d.cart_gap }
  else st

/-- Stage 4 `checkout` (lines 275-294): gated on an `add_to_cart`
event existing; exactly one event, carrying the A/B keys iff
`user_info.get("ab_variant")` is not `None`.  The threshold is
`funnel_probs["checkout"]`, with no device dependence. -/
def stage_checkout (uid : ℤ) (info : UserInfo) (probs : FunnelProbs)
    (d : SessionDraws) (sid : String) (eid : ℕ → String) (st : SimState) : SimState :=
  if (st.events.any (fun e => e.event_type = "add_to_cart")) ∧ d.u_checkout < probs.checkout then
    { events := st.events ++
        [{ event_id := eid st.events.length
           user_id := uid
           session_id := some sid
           event_type := "checkout"
           page := "checkout"
           product_id := none
           product_category := none
           ts := st.t
           source := info.source
           device := info.device
           ab_test_id := if info.ab_variant.isSome then some "checkout_layout_test_1" else none
           variant := info.ab_variant }]
      t := st.t + d.checkout_gap }
  else st

/-- The list comprehension `[e["product_id"] for e in events if
e["event_type"] == "add_to_cart"]` (line 299). -/
def cart_products (events : List Event) : List (Option ℤ) :=
  (events.filter (fun e => e.event_type = "add_to_cart")).map (fun e => e.product_id)

/-- Stage 5 `purchase` (lines 297-318): gated on a `checkout` event
existing; if the cart list is nonempty, exactly one purchase event
referencing the first carted product; `current_time` is not advanced. -/
def stage_purchase (uid : ℤ) (info : UserInfo) (probs : FunnelProbs)
    (d : SessionDraws) (sid : String) (eid : ℕ → String) (st : SimState) : SimState :=
  if (st.events.any (fun e => e.event_type = "checkout")) ∧ d.u_purchase < probs.purchase then
    match cart_products st.events with
    | [] => st
    | product_id :: _ =>
        { events := st.events ++
            [{ event_id := eid st.events.length
               user_id := uid
               session_id := some sid
               event_type := "purchase"
               page := "checkout"
               product_id := product_id
               product_category := get_product_category product_id
               ts := st.t
               source := info.source
               device := info.device
               ab_test_id := if info.ab_variant.isSome then some "checkout_layout_test_1" else none
               variant := info.ab_variant }]
          t := st.t }
  else st

/-- `simulate_user_session` (lines 171-320): bot short-circuit, then
the five funnel stages in order, threading `events`/`current_time`.
`sid` is the session's `uuid.uuid4()` value and `eid k` the uuid of
the `k`-th emitted event — supplied separately from the seeded draws
because `uuid.uuid4()` does not read the numpy PRNG. -/
def simulate_user_session (uid : ℤ) (info : UserInfo) (start_time : ℚ)
    (probs : FunnelProbs) (d : SessionDraws) (sid : String) (eid : ℕ → String) : List Event :=
  if info.is_bot then
    bot_session_events uid info start_time d sid eid
  else
    (stage_purchase uid info probs d sid eid
      (stage_checkout uid info probs d sid eid
        (stage_cart uid info probs d sid eid
          (stage_view uid info probs d sid eid
            (stage_visit uid info start_time probs d sid eid))))).events

/-! ## Noise injection (`generate_events`, lines 419-428) -/

/-- Overwrite only the `session_id` field of an event (what both
corruption passes do via `events_df.loc[mask, "session_id"] = ...`). -/
def set_session_id (e : Event) (s : Option String) : Event :=
  { e with session_id := s }

/-- Missing-ID pass (lines 419-420): events whose mask draw fired get
`session_id = None`; `i` is the running row index. -/
def apply_missing_noise (missing : ℕ → Bool) : ℕ → List Event → List Event
  | _, [] => []
  | i, e :: rest =>
      (if missing i then set_session_id e none else e) ::
        apply_missing_noise missing (i + 1) rest

/-- Duplicate-ID pass (lines 422-428): events whose mask draw fired
get the `session_id` of an independently chosen row `src i` of the
current (post-missing) collection `all`; rows eligible as sources are
exactly those not selected for duplication. -/
def apply_duplicate_noise (dup : ℕ → Bool) (src : ℕ → ℕ) (all : List Event) :
    ℕ → List Event → List Event
  | _, [] => []
  | i, e :: rest =>
      (if dup i then set_session_id e (all.getD (src i) e).session_id else e) ::
        apply_duplicate_noise dup src all (i + 1) rest

/-- Both corruption passes, in program order: missing-ID first, then
duplicate-ID over the already-missing-corrupted collection. -/
def inject_noise (missing dup : ℕ → Bool) (src : ℕ → ℕ) (events : List Event) : List Event :=
  apply_duplicate_noise dup src (apply_missing_noise missing 0 events) 0
    (apply_missing_noise missing 0 events)

/-! ## Order synthesizer (`generate_orders`, lines 439-519) -/

/-- One order row (the dict appended at lines 500-511). -/
structure Order where
  order_id : String
  user_id : ℤ
  product_id : Option ℤ
  price : ℚ
  quantity : ℕ
  discount_amount : ℚ
  ts : ℚ
  payment_status : String
  deriving DecidableEq

/-- `np.clip(x, lo, hi)`. -/
def np_clip (x lo hi : ℚ) : ℚ := min (max x lo) hi

/-- Python `round(x, 2)`: round to the nearest multiple of `1/100`. -/
def round2 (x : ℚ) : ℚ := ((round (100 * x) : ℤ) : ℚ) / 100

/-- `np.random.choice([1,2,3,4], p=[0.7,0.2,0.07,0.03])` as the
inverse-CDF of a uniform draw `u`. -/
def quantity_choice (u : ℚ) : ℕ :=
  if u < 7 / 10 then 1 else if u < 9 / 10 then 2 else if u < 97 / 100 then 3 else 4

/-- The draws one loop iteration of `generate_orders` takes from the
`np.random` stream, in consumption order.  `raw_price` stands for the
`exp(np.random.normal(3.5, 0.8))` value (any positive real). -/
structure OrderDraws where
  raw_price : ℚ
  u_quantity : ℚ
  u_discount : ℚ
  discount_pct : ℚ
  u_payment : ℚ

/-- One iteration of the `generate_orders` loop (lines 463-511):
price drawn log-normally then clipped and rounded, quantity 1-4,
discount only for paid-source or variant purchases with a 40% gate,
clamped so the post-discount total stays at or above `MIN_PRICE`;
`oid` is the order's `uuid.uuid4()` value. -/
def generate_order (event : Event) (d : OrderDraws) (oid : String) : Order :=
  let unit_price := round2 (np_clip d.raw_price MIN_PRICE MAX_PRICE)
  let quantity := quantity_choice d.u_quantity
  let base_total := unit_price * (quantity : ℚ)
  let source := event.source
  let variant := event.variant.getD "control"
  let eligible_for_discount := source = "paid" ∨ variant = "variant"
  let discount_amount : ℚ :=
    if eligible_for_discount ∧ d.u_discount < 4 / 10 then
      let da := round2 (base_total * d.discount_pct)
      if base_total - da < MIN_PRICE then max 0 (base_total - MIN_PRICE) else da
    else 0
  let final_price := round2 (base_total - discount_amount)
  { order_id := oid
    user_id := event.user_id
    product_id := event.product_id
    price := final_price
    quantity := quantity
    discount_amount := discount_amount
    ts := event.ts
    payment_status := if d.u_payment < 8 / 100 then "failed" else "success" }

/-- `generate_orders` row content: one order per `purchase` event, in
order, each consuming its own draws and uuid. -/
def generate_orders (events : List Event) (draws : ℕ → OrderDraws) (oids : ℕ → String) :
    List Order :=
  ((events.filter (fun e => e.event_type = "purchase")).enum).map
    (fun p => generate_order p.2 (draws p.1) (oids p.1))

/-- Column list of the DataFrame returned on the zero-purchase early
exit (line 457). -/
def EMPTY_ORDERS_COLUMNS : List String :=
  ["order_id", "user_id", "product_id", "price", "ts", "payment_status"]

/-- Column list of the per-order dicts built at lines 500-511 (the
schema of a non-empty orders DataFrame). -/
def ORDER_RECORD_COLUMNS : List String :=
  ["order_id", "user_id", "product_id", "price", "quantity", "discount_amount", "ts",
    "payment_status"]

/-- The column schema `generate_orders` gives its result: the reduced
six-column list on the zero-purchase early exit, the full eight-column
record schema otherwise. -/
def generate_orders_schema (events : List Event) : List String :=
  if events.filter (fun e => e.event_type = "purchase") = [] then EMPTY_ORDERS_COLUMNS
  else ORDER_RECORD_COLUMNS

/-! ## Erasure projections and concrete demonstration inputs -/

/-- All fields of an event except the uuid-generated `event_id` and
`session_id`: the part of an event determined by the seeded PRNG
stream alone. -/
structure EventData where
  user_id : ℤ
  event_type : String
  page : String
  product_id : Option ℤ
  product_category : Option String
  ts : ℚ
  source : String
  device : String
  ab_test_id : Option String
  variant : Option String
  deriving DecidableEq

/-- Drop the uuid-generated fields of an event. -/
def eraseIds (e : Event) : EventData :=
  { user_id := e.user_id
    event_type := e.event_type
    page := e.page
    product_id := e.product_id
    product_category := e.product_category
    ts := e.ts
    source := e.source
    device := e.device
    ab_test_id := e.ab_test_id
    variant := e.variant }

/-- Every field of an event except `session_id` (the only field the
noise injector is allowed to touch). -/
def erase_session (e : Event) : String × EventData := (e.event_id, eraseIds e)

/-- Every field of an order except the uuid-generated `order_id`. -/
def erase_order_id (o : Order) : ℤ × Option ℤ × ℚ × ℕ × ℚ × ℚ × String :=
  (o.user_id, o.product_id, o.price, o.quantity, o.discount_amount, o.ts, o.payment_status)

/-- Concrete draw record giving a full-funnel session: every gate draw
passes its default gate; `u_checkout = 0.29` sits between the claimed
mobile-adjusted threshold `0.95 × 0.30 = 0.285` and the actual
threshold `0.30`.  Its bot fields give a 2-event all-`product_view`
bot session. -/
def demo_draws : SessionDraws :=
  { bot_n_events := 2
    bot_type := fun _ => 1
    bot_pid := fun _ => 0
    u_visit := 0
    visit_gap := 0
    u_view := 0
    n_views_pred := 0
    view_pid := fun _ => 0
    view_gap := 0
    u_cart := 0
    n_cart_pred := 0
    cart_choice := fun _ => 0
    cart_fallback_pid := fun _ => 0
    cart_gap := 0
    u_checkout := 29 / 100
    checkout_gap := 0
    u_purchase := 0 }

/-- Concrete mobile, non-bot, gold-tier, control-variant user. -/
def demo_user : UserInfo :=
  { device := "mobile"
    country := "US"
    is_bot := false
    loyalty_tier := "gold"
    source := "organic"
    ab_variant := some "control" }

/-- The same user flagged as a bot. -/
def demo_bot_user : UserInfo := { demo_user with is_bot := true }

/-- Concrete order draws: unit price 15.00, quantity 1, discount gate
passing, 20% discount, successful payment. -/
def demo_order_draws : OrderDraws :=
  { raw_price := 15
    u_quantity := 0
    u_discount := 0
    discount_pct := 1 / 5
    u_payment := 1 / 2 }

/-- A concrete paid-source purchase event feeding the order loop. -/
def demo_purchase_event : Event :=
  { event_id := "e"
    user_id := 1
    session_id := some "s"
    event_type := "purchase"
    page := "checkout"
    product_id := some 1
    product_category := some "electronics"
    ts := 0
    source := "paid"
    device := "mobile"
    ab_test_id := none
    variant := none }

/-! ## Helper lemmas about the funnel stages -/

lemma np_choice_mem {α : Type} (xs : List α) (dflt : α) (r : ℕ) (h : xs ≠ []) :
    np_choice xs dflt r ∈ xs := by
  unfold np_choice
  have hl : 0 < xs.length := List.length_pos.mpr h
  have hm : r % xs.length < xs.length := Nat.mod_lt _ hl
  rw [List.getD_eq_getElem?_getD, List.getElem?_eq_getElem hm]
  exact List.getElem_mem hm

lemma viewed_products_length (l : List Event) :
    (viewed_products l).length = l.countP (fun e => e.event_type = "product_view") := by
  unfold viewed_products
  rw [List.length_map, ← List.countP_eq_length_filter]

lemma stage_visit_summary (uid : ℤ) (info : UserInfo) (start_time : ℚ) (probs : FunnelProbs)
    (d : SessionDraws) (sid : String) (eid : ℕ → String) :
    ∃ l1, (stage_visit uid info start_time probs d sid eid).events = l1 ∧ l1.length ≤ 1 ∧
      (∀ e ∈ l1, e.event_type = "visit" ∧ e.ts = start_time ∧ e.product_id = none ∧
        e.product_category = none) ∧
      (0 ≤ d.visit_gap → start_time ≤ (stage_visit uid info start_time probs d sid eid).t) := by
  unfold stage_visit
  split_ifs with h
  · exact ⟨_, rfl, by simp, by simp, fun hg => by simpa using hg⟩
  · exact ⟨[], rfl, by simp, by simp, fun _ => le_refl _⟩

lemma stage_view_summary (uid : ℤ) (info : UserInfo) (probs : FunnelProbs)
    (d : SessionDraws) (sid : String) (eid : ℕ → String) (st : SimState) :
    ∃ tl, (stage_view uid info probs d sid eid st).events = st.events ++ tl ∧
      (∀ e ∈ tl, e.event_type = "product_view" ∧
        e.product_category = get_product_category e.product_id ∧ st.t ≤ e.ts) ∧
      (tl ≠ [] → st.events ≠ []) ∧
      (0 ≤ d.view_gap → st.t ≤ (stage_view uid info probs d sid eid st).t) := by
  unfold stage_view
  split_ifs with h
  · refine ⟨_, rfl, ?_, fun _ => h.1, fun hg => by simpa using hg⟩
    intro e he
    simp only [List.mem_map, List.mem_range] at he
    obtain ⟨i, _, rfl⟩ := he
    refine ⟨rfl, rfl, ?_⟩
    have : (0:ℚ) ≤ 10 * (i:ℚ) := by positivity
    simp only
    linarith
  · exact ⟨[], by simp, by simp, by simp, fun _ => le_refl _⟩

lemma stage_cart_summary (uid : ℤ) (info : UserInfo) (probs : FunnelProbs)
    (d : SessionDraws) (sid : String) (eid : ℕ → String) (st : SimState) :
    ∃ tl, (stage_cart uid info probs d sid eid st).events = st.events ++ tl ∧
      (∀ e ∈ tl, e.event_type = "add_to_cart" ∧
        e.product_category = get_product_category e.product_id ∧
        e.product_id ∈ viewed_products st.events ∧ st.t ≤ e.ts) ∧
      tl.length ≤ (viewed_products st.events).length ∧
      (tl ≠ [] → 1 < st.events.length) ∧
      (0 ≤ d.cart_gap → st.t ≤ (stage_cart uid info probs d sid eid st).t) := by
  unfold stage_cart
  split_ifs with h
  · refine ⟨_, rfl, ?_, ?_, fun _ => h.1, fun hg => by simpa using hg⟩
    · intro e he
      simp only [List.mem_map, List.mem_range] at he
      obtain ⟨i, hi, rfl⟩ := he
      have hvne : viewed_products st.events ≠ [] := by
        intro hv
        rw [hv] at hi
        simp at hi
      refine ⟨rfl, rfl, ?_, ?_⟩
      · simp only [if_pos hvne]
        exact np_choice_mem _ _ _ hvne
      · have : (0:ℚ) ≤ 5 * (i:ℚ) := by positivity
        simp only
        linarith
    · simp only [List.length_map, List.length_range]
      exact min_le_right _ _
  · exact ⟨[], by simp, by simp, by simp, by simp, fun _ => le_refl _⟩

lemma stage_checkout_summary (uid : ℤ) (info : UserInfo) (probs : FunnelProbs)
    (d : SessionDraws) (sid : String) (eid : ℕ → String) (st : SimState) :
    ∃ tl, (stage_checkout uid info probs d sid eid st).events = st.events ++ tl ∧
      tl.length ≤ 1 ∧
      (∀ e ∈ tl, e.event_type = "checkout" ∧ e.product_id = none ∧
        e.product_category = none ∧ st.t ≤ e.ts) ∧
      (tl ≠ [] → st.events.any (fun e => e.event_type = "add_to_cart") = true) ∧
      (0 ≤ d.checkout_gap → st.t ≤ (stage_checkout uid info probs d sid eid st).t) := by
  by_cases hcond : (st.events.any (fun e => e.event_type = "add_to_cart") = true ∧
      d.u_checkout < probs.checkout)
  · unfold stage_checkout
    rw [if_pos hcond]
    refine ⟨_, rfl, by simp, ?_, fun _ => hcond.1, fun hg => ?_⟩
    · intro e he
      simp only [List.mem_singleton] at he
      subst he
      exact ⟨rfl, rfl, rfl, le_refl _⟩
    · show st.t ≤ st.t + d.checkout_gap
      linarith
  · unfold stage_checkout
    rw [if_neg hcond]
    exact ⟨[], by simp, by simp, by simp, by simp, fun _ => le_refl _⟩

lemma stage_purchase_summary (uid : ℤ) (info : UserInfo) (probs : FunnelProbs)
    (d : SessionDraws) (sid : String) (eid : ℕ → String) (st : SimState) :
    ∃ tl, (stage_purchase uid info probs d sid eid st).events = st.events ++ tl ∧
      tl.length ≤ 1 ∧
      (∀ e ∈ tl, e.event_type = "purchase" ∧
        e.product_category = get_product_category e.product_id ∧ st.t ≤ e.ts) ∧
      (tl ≠ [] → st.events.any (fun e => e.event_type = "checkout") = true) ∧
      st.t ≤ (stage_purchase uid info probs d sid eid st).t := by
  by_cases hcond : (st.events.any (fun e => e.event_type = "checkout") = true ∧
      d.u_purchase < probs.purchase)
  · unfold stage_purchase
    rw [if_pos hcond]
    cases hc : cart_products st.events with
    | nil =>
        refine ⟨[], ?_, ?_, ?_, ?_, ?_⟩
        · simp
        · simp
        · simp
        · simp
        · show st.t ≤ st.t
          exact le_refl _
    | cons pid rest =>
        refine ⟨_, rfl, by simp, ?_, fun _ => hcond.1, le_refl _⟩
        intro e he
        simp only [List.mem_singleton] at he
        subst he
        exact ⟨rfl, rfl, le_refl _⟩
  · unfold stage_purchase
    rw [if_neg hcond]
    exact ⟨[], by simp, by simp, by simp, by simp, le_refl _⟩

/-- Master decomposition of a non-bot session: the emitted list splits
into the (possibly empty) per-stage blocks, with their event types,
category mapping, gating and timestamp facts. -/
lemma simulate_decomp (uid : ℤ) (info : UserInfo) (start_time : ℚ) (probs : FunnelProbs)
    (d : SessionDraws) (sid : String) (eid : ℕ → String) (hb : info.is_bot = false) :
    ∃ l1 l2 l3 l4 l5 : List Event,
      simulate_user_session uid info start_time probs d sid eid = l1 ++ l2 ++ l3 ++ l4 ++ l5 ∧
      l1.length ≤ 1 ∧ l4.length ≤ 1 ∧ l5.length ≤ 1 ∧
      (∀ e ∈ l1, e.event_type = "visit" ∧ e.ts = start_time ∧ e.product_id = none ∧
        e.product_category = none) ∧
      (∀ e ∈ l2, e.event_type = "product_view" ∧
        e.product_category = get_product_category e.product_id) ∧
      (∀ e ∈ l3, e.event_type = "add_to_cart" ∧
        e.product_category = get_product_category e.product_id ∧
        e.product_id ∈ viewed_products (l1 ++ l2)) ∧
      (∀ e ∈ l4, e.event_type = "checkout" ∧ e.product_id = none ∧
        e.product_category = none) ∧
      (∀ e ∈ l5, e.event_type = "purchase" ∧
        e.product_category = get_product_category e.product_id) ∧
      l3.length ≤ (viewed_products (l1 ++ l2)).length ∧
      (l2 ≠ [] → l1 ≠ []) ∧
      (l3 ≠ [] → 1 < (l1 ++ l2).length) ∧
      (l4 ≠ [] → (l1 ++ l2 ++ l3).any (fun e => e.event_type = "add_to_cart") = true) ∧
      (l5 ≠ [] → (l1 ++ l2 ++ l3 ++ l4).any (fun e => e.event_type = "checkout") = true) ∧
      (0 ≤ d.visit_gap → 0 ≤ d.view_gap → 0 ≤ d.cart_gap → 0 ≤ d.checkout_gap →
        ∀ e ∈ l1 ++ l2 ++ l3 ++ l4 ++ l5, start_time ≤ e.ts) := by
  obtain ⟨l1, h1ev, h1len, h1face, h1t⟩ := stage_visit_summary uid info start_time probs d sid eid
  set st1 := stage_visit uid info start_time probs d sid eid with hst1
  obtain ⟨l2, h2ev, h2face, h2gate, h2t⟩ := stage_view_summary uid info probs d sid eid st1
  set st2 := stage_view uid info probs d sid eid st1 with hst2
  obtain ⟨l3, h3ev, h3face, h3len, h3gate, h3t⟩ := stage_cart_summary uid info probs d sid eid st2
  set st3 := stage_cart uid info probs d sid eid st2 with hst3
  obtain ⟨l4, h4ev, h4len, h4face, h4gate, h4t⟩ :=
    stage_checkout_summary uid info probs d sid eid st3
  set st4 := stage_checkout uid info probs d sid eid st3 with hst4
  obtain ⟨l5, h5ev, h5len, h5face, h5gate, h5t⟩ :=
    stage_purchase_summary uid info probs d sid eid st4
  have e1 : st1.events = l1 := h1ev
  have e2 : st2.events = l1 ++ l2 := by rw [h2ev, e1]
  have e3 : st3.events = l1 ++ l2 ++ l3 := by rw [h3ev, e2]
  have e4 : st4.events = l1 ++ l2 ++ l3 ++ l4 := by rw [h4ev, e3]
  have hsim : simulate_user_session uid info start_time probs d sid eid =
      l1 ++ l2 ++ l3 ++ l4 ++ l5 := by
    unfold simulate_user_session
    rw [if_neg (by simp [hb]), ← hst1, ← hst2, ← hst3, ← hst4, h5ev, e4]
  refine ⟨l1, l2, l3, l4, l5, hsim, h1len, h4len, h5len, h1face, ?_, ?_, ?_, ?_, ?_, ?_, ?_,
    ?_, ?_, ?_⟩
  · intro e he
    exact ⟨(h2face e he).1, (h2face e he).2.1⟩
  · intro e he
    obtain ⟨hty, hcat, hmem, _⟩ := h3face e he
    exact ⟨hty, hcat, by rwa [e2] at hmem⟩
  · intro e he
    obtain ⟨hty, hpid, hcat, _⟩ := h4face e he
    exact ⟨hty, hpid, hcat⟩
  · intro e he
    exact ⟨(h5face e he).1, (h5face e he).2.1⟩
  · rwa [e2] at h3len
  · intro h2ne
    have := h2gate h2ne
    rwa [e1] at this
  · intro h3ne
    have := h3gate h3ne
    rwa [e2] at this
  · intro h4ne
    have := h4gate h4ne
    rwa [e3] at this
  · intro h5ne
    have := h5gate h5ne
    rwa [e4] at this
  · intro hg1 hg2 hg3 hg4 e he
    have t1 : start_time ≤ st1.t := h1t hg1
    have t2 : st1.t ≤ st2.t := h2t hg2
    have t3 : st2.t ≤ st3.t := h3t hg3
    have t4 : st3.t ≤ st4.t := h4t hg4
    simp only [List.mem_append] at he
    rcases he with ((((he | he) | he) | he) | he)
    · exact le_of_eq ((h1face e he).2.1).symm
    · exact le_trans t1 (h2face e he).2.2
    · exact le_trans (le_trans t1 t2) (h3face e he).2.2.2
    · exact le_trans (le_trans (le_trans t1 t2) t3) (h4face e he).2.2.2
    · exact le_trans (le_trans (le_trans (le_trans t1 t2) t3) t4) (h5face e he).2.2

lemma bot_event_facts (uid : ℤ) (info : UserInfo) (start_time : ℚ) (d : SessionDraws)
    (sid : String) (eid : ℕ → String) :
    ∀ e ∈ bot_session_events uid info start_time d sid eid,
      e.event_type = "visit" ∨ e.event_type = "product_view" := by
  intro e he
  unfold bot_session_events at he
  simp only [List.mem_map, List.mem_range] at he
  obtain ⟨i, _, rfl⟩ := he
  rcases Nat.mod_two_eq_zero_or_one (d.bot_type i) with h | h <;>
    simp [np_choice, h]

lemma any_type_false (l : List Event) (s : String) (h : ∀ e ∈ l, e.event_type ≠ s) :
    l.any (fun e => e.event_type = s) = false := by
  rw [List.any_eq_false]
  intro e he
  simp [h e he]

lemma any_type_true (l : List Event) (s : String) (hne : l ≠ [])
    (h : ∀ e ∈ l, e.event_type = s) : l.any (fun e => e.event_type = s) = true := by
  obtain ⟨e, he⟩ := List.exists_mem_of_ne_nil l hne
  rw [List.any_eq_true]
  exact ⟨e, he, by simp [h e he]⟩

lemma any_type_elim {l : List Event} {s : String}
    (h : l.any (fun e => e.event_type = s) = true) (hf : ∀ e ∈ l, e.event_type ≠ s) : False := by
  rw [any_type_false l s hf] at h
  cases h

lemma ne_of_type_eq {e : Event} {s1 s2 : String} (h : e.event_type = s1) (hne : s1 ≠ s2) :
    e.event_type ≠ s2 := by
  rw [h]
  exact hne

lemma countP_type_zero (l : List Event) (s : String) (h : ∀ e ∈ l, e.event_type ≠ s) :
    l.countP (fun e => e.event_type = s) = 0 := by
  rw [List.countP_eq_zero]
  intro e he
  simp [h e he]

lemma countP_type_length (l : List Event) (s : String) (h : ∀ e ∈ l, e.event_type = s) :
    l.countP (fun e => e.event_type = s) = l.length := by
  rw [List.countP_eq_length]
  intro e he
  simp [h e he]

lemma filter_type_nil (l : List Event) (s : String) (h : ∀ e ∈ l, e.event_type ≠ s) :
    l.filter (fun e => e.event_type = s) = [] := by
  rw [List.filter_eq_nil_iff]
  intro e he
  simp [h e he]

lemma filter_type_all (l : List Event) (s : String) (h : ∀ e ∈ l, e.event_type = s) :
    l.filter (fun e => e.event_type = s) = l := by
  rw [List.filter_eq_self]
  intro e he
  simp [h e he]

lemma viewed_products_append (a b : List Event) :
    viewed_products (a ++ b) = viewed_products a ++ viewed_products b := by
  simp [viewed_products, List.filter_append]

/-! ## Helper lemmas: noise injection and order arithmetic -/

lemma apply_missing_noise_map (missing : ℕ → Bool) :
    ∀ (i : ℕ) (l : List Event),
      (apply_missing_noise missing i l).map erase_session = l.map erase_session := by
  intro i l
  induction l generalizing i with
  | nil => rfl
  | cons e rest ih =>
      simp only [apply_missing_noise, List.map_cons, ih]
      by_cases h : missing i <;> simp [h, erase_session, eraseIds, set_session_id]

lemma apply_duplicate_noise_map (dup : ℕ → Bool) (src : ℕ → ℕ) (all : List Event) :
    ∀ (i : ℕ) (l : List Event),
      (apply_duplicate_noise dup src all i l).map erase_session = l.map erase_session := by
  intro i l
  induction l generalizing i with
  | nil => rfl
  | cons e rest ih =>
      simp only [apply_duplicate_noise, List.map_cons, ih]
      by_cases h : dup i <;> simp [h, erase_session, eraseIds, set_session_id]

lemma round2_le_round2 {x y : ℚ} (h : x ≤ y) : round2 x ≤ round2 y := by
  unfold round2
  have hr : round (100 * x) ≤ round (100 * y) := by
    rw [round_eq, round_eq]
    exact Int.floor_le_floor (by linarith)
  have hc : ((round (100 * x) : ℤ) : ℚ) ≤ ((round (100 * y) : ℤ) : ℚ) := by exact_mod_cast hr
  linarith

lemma round2_min_price : round2 MIN_PRICE = MIN_PRICE := by
  unfold round2 MIN_PRICE
  norm_num [round_eq]

lemma quantity_choice_pos (u : ℚ) : 1 ≤ quantity_choice u := by
  unfold quantity_choice
  split_ifs <;> norm_num

/-! ## Helper lemmas: uuid-erasure congruence -/

lemma any_map_poly {α β : Type} (l : List α) (f : α → β) (p : β → Bool) :
    (l.map f).any p = l.any (fun a => p (f a)) := by
  induction l with
  | nil => rfl
  | cons x xs ih => simp [ih]

lemma any_type_factor (l : List Event) (s : String) :
    l.any (fun e => e.event_type = s) = (l.map eraseIds).any (fun ed => ed.event_type = s) := by
  rw [any_map_poly]
  rfl

lemma viewed_products_factor (l : List Event) :
    viewed_products l = ((l.map eraseIds).filter
      (fun ed => ed.event_type = "product_view")).map (fun ed => ed.product_id) := by
  unfold viewed_products
  rw [List.filter_map, List.map_map]
  rfl

lemma cart_products_factor (l : List Event) :
    cart_products l = ((l.map eraseIds).filter
      (fun ed => ed.event_type = "add_to_cart")).map (fun ed => ed.product_id) := by
  unfold cart_products
  rw [List.filter_map, List.map_map]
  rfl

lemma length_eq_of_map_erase {l1 l2 : List Event}
    (h : l1.map eraseIds = l2.map eraseIds) : l1.length = l2.length := by
  rw [← List.length_map l1 eraseIds, h, List.length_map]

lemma stage_visit_erase (uid : ℤ) (info : UserInfo) (start_time : ℚ) (probs : FunnelProbs)
    (d : SessionDraws) (sid1 sid2 : String) (eid1 eid2 : ℕ → String) :
    (stage_visit uid info start_time probs d sid1 eid1).events.map eraseIds =
      (stage_visit uid info start_time probs d sid2 eid2).events.map eraseIds ∧
    (stage_visit uid info start_time probs d sid1 eid1).t =
      (stage_visit uid info start_time probs d sid2 eid2).t := by
  unfold stage_visit
  split_ifs <;> exact ⟨rfl, rfl⟩

lemma stage_view_erase (uid : ℤ) (info : UserInfo) (probs : FunnelProbs) (d : SessionDraws)
    (sid1 sid2 : String) (eid1 eid2 : ℕ → String) {st1 st2 : SimState}
    (hev : st1.events.map eraseIds = st2.events.map eraseIds) (ht : st1.t = st2.t) :
    (stage_view uid info probs d sid1 eid1 st1).events.map eraseIds =
      (stage_view uid info probs d sid2 eid2 st2).events.map eraseIds ∧
    (stage_view uid info probs d sid1 eid1 st1).t =
      (stage_view uid info probs d sid2 eid2 st2).t := by
  have hlen := length_eq_of_map_erase hev
  have hne : st1.events ≠ [] ↔ st2.events ≠ [] := by
    rw [← List.length_pos, ← List.length_pos, hlen]
  by_cases hc : st1.events ≠ [] ∧ d.u_view < probs.product_view
  · have hc2 : st2.events ≠ [] ∧ d.u_view < probs.product_view := ⟨hne.mp hc.1, hc.2⟩
    unfold stage_view
    rw [if_pos hc, if_pos hc2]
    constructor
    · simp only [List.map_append, List.map_map, hev]
      congr 1
      apply List.map_congr_left
      intro i _
      simp [eraseIds, ht]
    · simp only [ht]
  · have hc2 : ¬(st2.events ≠ [] ∧ d.u_view < probs.product_view) := fun h =>
      hc ⟨hne.mpr h.1, h.2⟩
    unfold stage_view
    rw [if_neg hc, if_neg hc2]
    exact ⟨hev, ht⟩

lemma stage_cart_erase (uid : ℤ) (info : UserInfo) (probs : FunnelProbs) (d : SessionDraws)
    (sid1 sid2 : String) (eid1 eid2 : ℕ → String) {st1 st2 : SimState}
    (hev : st1.events.map eraseIds = st2.events.map eraseIds) (ht : st1.t = st2.t) :
    (stage_cart uid info probs d sid1 eid1 st1).events.map eraseIds =
      (stage_cart uid info probs d sid2 eid2 st2).events.map eraseIds ∧
    (stage_cart uid info probs d sid1 eid1 st1).t =
      (stage_cart uid info probs d sid2 eid2 st2).t := by
  have hlen := length_eq_of_map_erase hev
  have hviewed : viewed_products st1.events = viewed_products st2.events := by
    rw [viewed_products_factor, hev, ← viewed_products_factor]
  by_cases hc : 1 < st1.events.length ∧ d.u_cart < probs.add_to_cart
  · have hc2 : 1 < st2.events.length ∧ d.u_cart < probs.add_to_cart := ⟨by omega, hc.2⟩
    unfold stage_cart
    rw [if_pos hc, if_pos hc2]
    constructor
    · simp only [List.map_append, List.map_map, hev, hviewed, hlen]
      congr 1
      apply List.map_congr_left
      intro i _
      simp [eraseIds, ht]
    · simp only [ht]
  · have hc2 : ¬(1 < st2.events.length ∧ d.u_cart < probs.add_to_cart) := by
      intro h
      exact hc ⟨by omega, h.2⟩
    unfold stage_cart
    rw [if_neg hc, if_neg hc2]
    exact ⟨hev, ht⟩

lemma stage_checkout_erase (uid : ℤ) (info : UserInfo) (probs : FunnelProbs) (d : SessionDraws)
    (sid1 sid2 : String) (eid1 eid2 : ℕ → String) {st1 st2 : SimState}
    (hev : st1.events.map eraseIds = st2.events.map eraseIds) (ht : st1.t = st2.t) :
    (stage_checkout uid info probs d sid1 eid1 st1).events.map eraseIds =
      (stage_checkout uid info probs d sid2 eid2 st2).events.map eraseIds ∧
    (stage_checkout uid info probs d sid1 eid1 st1).t =
      (stage_checkout uid info probs d sid2 eid2 st2).t := by
  have hany : st1.events.any (fun e => e.event_type = "add_to_cart") =
      st2.events.any (fun e => e.event_type = "add_to_cart") := by
    rw [any_type_factor, hev, ← any_type_factor]
  by_cases hc : st1.events.any (fun e => e.event_type = "add_to_cart") = true ∧
      d.u_checkout < probs.checkout
  · have hc2 : st2.events.any (fun e => e.event_type = "add_to_cart") = true ∧
        d.u_checkout < probs.checkout := ⟨by rw [← hany]; exact hc.1, hc.2⟩
    unfold stage_checkout
    rw [if_pos hc, if_pos hc2]
    constructor
    · simp only [List.map_append, hev, List.map_cons, List.map_nil]
      congr 1
      simp [eraseIds, ht]
    · simp only [ht]
  · have hc2 : ¬(st2.events.any (fun e => e.event_type = "add_to_cart") = true ∧
        d.u_checkout < probs.checkout) := by
      intro h
      exact hc ⟨by rw [hany]; exact h.1, h.2⟩
    unfold stage_checkout
    rw [if_neg hc, if_neg hc2]
    exact ⟨hev, ht⟩

lemma stage_purchase_erase (uid : ℤ) (info : UserInfo) (probs : FunnelProbs) (d : SessionDraws)
    (sid1 sid2 : String) (eid1 eid2 : ℕ → String) {st1 st2 : SimState}
    (hev : st1.events.map eraseIds = st2.events.map eraseIds) (ht : st1.t = st2.t) :
    (stage_purchase uid info probs d sid1 eid1 st1).events.map eraseIds =
      (stage_purchase uid info probs d sid2 eid2 st2).events.map eraseIds ∧
    (stage_purchase uid info probs d sid1 eid1 st1).t =
      (stage_purchase uid info probs d sid2 eid2 st2).t := by
  have hany : st1.events.any (fun e => e.event_type = "checkout") =
      st2.events.any (fun e => e.event_type = "checkout") := by
    rw [any_type_factor, hev, ← any_type_factor]
  have hcarts : cart_products st1.events = cart_products st2.events := by
    rw [cart_products_factor, hev, ← cart_products_factor]
  by_cases hc : st1.events.any (fun e => e.event_type = "checkout") = true ∧
      d.u_purchase < probs.purchase
  · have hc2 : st2.events.any (fun e => e.event_type = "checkout") = true ∧
        d.u_purchase < probs.purchase := ⟨by rw [← hany]; exact hc.1, hc.2⟩
    unfold stage_purchase
    rw [if_pos hc, if_pos hc2, ← hcarts]
    cases cart_products st1.events with
    | nil => exact ⟨hev, ht⟩
    | cons pid rest =>
        constructor
        · simp only [List.map_append, hev, List.map_cons, List.map_nil]
          congr 1
          simp [eraseIds, ht]
        · simp only [ht]
  · have hc2 : ¬(st2.events.any (fun e => e.event_type = "checkout") = true ∧
        d.u_purchase < probs.purchase) := by
      intro h
      exact hc ⟨by rw [hany]; exact h.1, h.2⟩
    unfold stage_purchase
    rw [if_neg hc, if_neg hc2]
    exact ⟨hev, ht⟩

lemma bot_session_events_erase (uid : ℤ) (info : UserInfo) (start_time : ℚ) (d : SessionDraws)
    (sid1 sid2 : String) (eid1 eid2 : ℕ → String) :
    (bot_session_events uid info start_time d sid1 eid1).map eraseIds =
      (bot_session_events uid info start_time d sid2 eid2).map eraseIds := by
  unfold bot_session_events
  rw [List.map_map, List.map_map]
  apply List.map_congr_left
  intro i _
  simp [eraseIds]

/-! ## Claims -/

/-- C5: for every session simulated for a bot-flagged user, no
`add_to_cart`, `checkout`, or `purchase` event is ever emitted — the
bot branch of `simulate_user_session` only ever draws from
`["visit", "product_view"]`. -/
theorem c5_bot_sessions_no_conversion_events (uid : ℤ) (info : UserInfo) (start_time : ℚ)
    (probs : FunnelProbs) (d : SessionDraws) (sid : String) (eid : ℕ → String) :
    (simulate_user_session uid { info with is_bot := true } start_time probs d sid eid).all
      (fun e => !(e.event_type == "add_to_cart") && !(e.event_type == "checkout") &&
        !(e.event_type == "purchase")) = true := by
  rw [List.all_eq_true]
  intro e he
  unfold simulate_user_session at he
  rw [if_pos rfl] at he
  rcases bot_event_facts uid _ start_time d sid eid e he with h | h <;> simp [h]

/-- C3 (amended): the funnel-gating invariant holds for every session
as emitted by the simulator (before noise injection): `add_to_cart`
present implies `product_view` present, `checkout` present implies
`add_to_cart` present, and `purchase` present implies exactly one
`checkout` in the session. -/
theorem c3_funnel_gating_pre_noise (uid : ℤ) (info : UserInfo) (start_time : ℚ)
    (probs : FunnelProbs) (d : SessionDraws) (sid : String) (eid : ℕ → String) :
    ((simulate_user_session uid info start_time probs d sid eid).any
        (fun e => e.event_type = "add_to_cart") = true →
      (simulate_user_session uid info start_time probs d sid eid).any
        (fun e => e.event_type = "product_view") = true) ∧
    ((simulate_user_session uid info start_time probs d sid eid).any
        (fun e => e.event_type = "checkout") = true →
      (simulate_user_session uid info start_time probs d sid eid).any
        (fun e => e.event_type = "add_to_cart") = true) ∧
    ((simulate_user_session uid info start_time probs d sid eid).any
        (fun e => e.event_type = "purchase") = true →
      (simulate_user_session uid info start_time probs d sid eid).countP
        (fun e => e.event_type = "checkout") = 1) := by
  by_cases hb : info.is_bot
  · -- bot branch: only visit / product_view events exist
    have hbt : ∀ s : String, s ≠ "visit" → s ≠ "product_view" →
        (simulate_user_session uid info start_time probs d sid eid).any
          (fun e => e.event_type = s) = false := by
      intro s h1 h2
      apply any_type_false
      intro e he
      unfold simulate_user_session at he
      rw [if_pos hb] at he
      rcases bot_event_facts uid info start_time d sid eid e he with h | h <;>
        · rw [h]
          intro hc
          first
          | exact h1 hc.symm
          | exact h2 hc.symm
    refine ⟨?_, ?_, ?_⟩
    · intro h
      rw [hbt "add_to_cart" (by decide) (by decide)] at h
      cases h
    · intro h
      rw [hbt "checkout" (by decide) (by decide)] at h
      cases h
    · intro h
      rw [hbt "purchase" (by decide) (by decide)] at h
      cases h
  · -- non-bot branch: use the stage decomposition
    have hb' : info.is_bot = false := by simpa using hb
    obtain ⟨l1, l2, l3, l4, l5, hsim, hlen1, hlen4, hlen5, hf1, hf2, hf3, hf4, hf5, hlen3,
      hgate2, hgate3, hgate4, hgate5, hts⟩ :=
      simulate_decomp uid info start_time probs d sid eid hb'
    rw [hsim]
    refine ⟨?_, ?_, ?_⟩
    · intro hcart
      have h3ne : l3 ≠ [] := by
        intro h3
        rw [h3] at hcart
        simp only [List.append_nil, List.any_append, Bool.or_eq_true] at hcart
        rcases hcart with ((h | h) | h) | h
        · exact any_type_elim h (fun e he => ne_of_type_eq (hf1 e he).1 (by decide))
        · exact any_type_elim h (fun e he => ne_of_type_eq (hf2 e he).1 (by decide))
        · exact any_type_elim h (fun e he => ne_of_type_eq (hf4 e he).1 (by decide))
        · exact any_type_elim h (fun e he => ne_of_type_eq (hf5 e he).1 (by decide))
      have h2ne : l2 ≠ [] := by
        have hlt := hgate3 h3ne
        intro h2
        rw [h2] at hlt
        simp only [List.append_nil] at hlt
        omega
      have hview : l2.any (fun e => e.event_type = "product_view") = true :=
        any_type_true _ _ h2ne (fun e he => (hf2 e he).1)
      simp only [List.any_append, Bool.or_eq_true]
      exact Or.inl (Or.inl (Or.inl (Or.inr hview)))
    · intro hck
      have h4ne : l4 ≠ [] := by
        intro h4
        rw [h4] at hck
        simp only [List.append_nil, List.any_append, Bool.or_eq_true] at hck
        rcases hck with ((h | h) | h) | h
        · exact any_type_elim h (fun e he => ne_of_type_eq (hf1 e he).1 (by decide))
        · exact any_type_elim h (fun e he => ne_of_type_eq (hf2 e he).1 (by decide))
        · exact any_type_elim h (fun e he => ne_of_type_eq (hf3 e he).1 (by decide))
        · exact any_type_elim h (fun e he => ne_of_type_eq (hf5 e he).1 (by decide))
      have hcart3 := hgate4 h4ne
      simp only [List.any_append, Bool.or_eq_true] at hcart3 ⊢
      rcases hcart3 with (h | h) | h
      · exact Or.inl (Or.inl (Or.inl (Or.inl h)))
      · exact Or.inl (Or.inl (Or.inl (Or.inr h)))
      · exact Or.inl (Or.inl (Or.inr h))
    · intro hpur
      have h5ne : l5 ≠ [] := by
        intro h5
        rw [h5] at hpur
        simp only [List.append_nil, List.any_append, Bool.or_eq_true] at hpur
        rcases hpur with ((h | h) | h) | h
        · exact any_type_elim h (fun e he => ne_of_type_eq (hf1 e he).1 (by decide))
        · exact any_type_elim h (fun e he => ne_of_type_eq (hf2 e he).1 (by decide))
        · exact any_type_elim h (fun e he => ne_of_type_eq (hf3 e he).1 (by decide))
        · exact any_type_elim h (fun e he => ne_of_type_eq (hf4 e he).1 (by decide))
      have hck4 := hgate5 h5ne
      have h4ne : l4 ≠ [] := by
        intro h4
        rw [h4] at hck4
        simp only [List.append_nil, List.any_append, Bool.or_eq_true] at hck4
        rcases hck4 with (h | h) | h
        · exact any_type_elim h (fun e he => ne_of_type_eq (hf1 e he).1 (by decide))
        · exact any_type_elim h (fun e he => ne_of_type_eq (hf2 e he).1 (by decide))
        · exact any_type_elim h (fun e he => ne_of_type_eq (hf3 e he).1 (by decide))
      have hpos : 0 < l4.length := List.length_pos.mpr h4ne
      simp only [List.countP_append]
      rw [countP_type_zero l1 "checkout" (fun e he => ne_of_type_eq (hf1 e he).1 (by decide)),
        countP_type_zero l2 "checkout" (fun e he => ne_of_type_eq (hf2 e he).1 (by decide)),
        countP_type_zero l3 "checkout" (fun e he => ne_of_type_eq (hf3 e he).1 (by decide)),
        countP_type_zero l5 "checkout" (fun e he => ne_of_type_eq (hf5 e he).1 (by decide)),
        countP_type_length l4 "checkout" (fun e he => (hf4 e he).1)]
      omega

/-- C4 (amended): a non-bot session is either empty (possible when the
session's visit probability is scaled below 1, e.g. for paid-source
sessions) or starts with its unique `visit` event, stamped at the
session start time, which is the earliest timestamp in the session. -/
theorem c4_visit_first_amended (uid : ℤ) (info : UserInfo) (start_time : ℚ)
    (probs : FunnelProbs) (d : SessionDraws) (sid : String) (eid : ℕ → String)
    (hb : info.is_bot = false) (hg1 : 0 ≤ d.visit_gap) (hg2 : 0 ≤ d.view_gap)
    (hg3 : 0 ≤ d.cart_gap) (hg4 : 0 ≤ d.checkout_gap) :
    simulate_user_session uid info start_time probs d sid eid = [] ∨
    ∃ v : Event,
      (simulate_user_session uid info start_time probs d sid eid).head? = some v ∧
      v.event_type = "visit" ∧ v.ts = start_time ∧
      (simulate_user_session uid info start_time probs d sid eid).countP
        (fun e => e.event_type = "visit") = 1 ∧
      ∀ e ∈ simulate_user_session uid info start_time probs d sid eid, v.ts ≤ e.ts := by
  obtain ⟨l1, l2, l3, l4, l5, hsim, hlen1, hlen4, hlen5, hf1, hf2, hf3, hf4, hf5, hlen3,
    hgate2, hgate3, hgate4, hgate5, hts⟩ :=
    simulate_decomp uid info start_time probs d sid eid hb
  rw [hsim]
  cases hl1 : l1 with
  | nil =>
      left
      have h2 : l2 = [] := by
        by_contra h
        exact (hgate2 h) hl1
      have h3 : l3 = [] := by
        by_contra h
        have hx := hgate3 h
        rw [hl1, h2] at hx
        simp at hx
      have h4 : l4 = [] := by
        by_contra h
        have hx := hgate4 h
        rw [hl1, h2, h3] at hx
        simp at hx
      have h5 : l5 = [] := by
        by_contra h
        have hx := hgate5 h
        rw [hl1, h2, h3, h4] at hx
        simp at hx
      rw [h2, h3, h4, h5]
      simp
  | cons v rest =>
      right
      have hrlen : rest.length = 0 := by
        have h := hlen1
        rw [hl1] at h
        simp only [List.length_cons] at h
        omega
      have hrest : rest = [] := List.length_eq_zero.mp hrlen
      subst hrest
      have hv : v ∈ l1 := by
        rw [hl1]
        exact List.mem_singleton_self v
      obtain ⟨hvty, hvts, _, _⟩ := hf1 v hv
      refine ⟨v, ?_, hvty, hvts, ?_, ?_⟩
      · simp
      · simp only [List.countP_append]
        rw [countP_type_zero l2 "visit" (fun e he => ne_of_type_eq (hf2 e he).1 (by decide)),
          countP_type_zero l3 "visit" (fun e he => ne_of_type_eq (hf3 e he).1 (by decide)),
          countP_type_zero l4 "visit" (fun e he => ne_of_type_eq (hf4 e he).1 (by decide)),
          countP_type_zero l5 "visit" (fun e he => ne_of_type_eq (hf5 e he).1 (by decide))]
        simp [hvty]
      · intro e he
        rw [hvts]
        exact hts hg1 hg2 hg3 hg4 e (by rw [hl1]; exact he)

/-- C9 (amended): the `product_id → product_category` mapping is pure
and total over every integer (hence over every positive one) and is
cyclic with period 5, so ids 1 and 6 share a category; every event of
a NON-BOT session carries `product_category` equal to the mapping of
its `product_id` (bot events carry a `product_id` but no
`product_category`). -/
theorem c9_product_category_amended :
    (∀ pid : ℤ, (get_product_category (some pid)).isSome = true) ∧
    get_product_category (some 1) = get_product_category (some 6) ∧
    ∀ (uid : ℤ) (info : UserInfo) (start_time : ℚ) (probs : FunnelProbs) (d : SessionDraws)
      (sid : String) (eid : ℕ → String),
      (simulate_user_session uid { info with is_bot := false } start_time probs d sid
        eid).Forall (fun e => e.product_category = get_product_category e.product_id) := by
  refine ⟨?_, ?_, ?_⟩
  · intro pid
    show (PRODUCT_CATEGORIES.get?
      (((pid - 1) % (PRODUCT_CATEGORIES.length : ℤ)).toNat)).isSome = true
    have h5 : (0:ℤ) < (PRODUCT_CATEGORIES.length : ℤ) := by decide
    have hnn : 0 ≤ (pid - 1) % (PRODUCT_CATEGORIES.length : ℤ) :=
      Int.emod_nonneg _ (by decide)
    have hlt : (pid - 1) % (PRODUCT_CATEGORIES.length : ℤ) < (PRODUCT_CATEGORIES.length : ℤ) :=
      Int.emod_lt_of_pos _ h5
    have hidx : ((pid - 1) % (PRODUCT_CATEGORIES.length : ℤ)).toNat <
        PRODUCT_CATEGORIES.length := by omega
    rw [List.get?_eq_getElem?, List.getElem?_eq_getElem hidx]
    rfl
  · decide
  · intro uid info start_time probs d sid eid
    rw [List.forall_iff_forall_mem]
    intro e he
    obtain ⟨l1, l2, l3, l4, l5, hsim, -, -, -, hf1, hf2, hf3, hf4, hf5, -, -, -, -, -, -⟩ :=
      simulate_decomp uid { info with is_bot := false } start_time probs d sid eid rfl
    rw [hsim] at he
    simp only [List.mem_append] at he
    rcases he with ((((he | he) | he) | he) | he)
    · obtain ⟨-, -, hpid, hcat⟩ := hf1 e he
      rw [hpid, hcat]
      rfl
    · exact (hf2 e he).2
    · exact (hf3 e he).2.1
    · obtain ⟨-, hpid, hcat⟩ := hf4 e he
      rw [hpid, hcat]
      rfl
    · exact (hf5 e he).2

/-- C10: in every non-bot session, the number of `add_to_cart` events
never exceeds the number of `product_view` events, and every
`add_to_cart` event's `product_id` is one of the session's viewed
product ids. -/
theorem c10_cart_bounded_by_views (uid : ℤ) (info : UserInfo) (start_time : ℚ)
    (probs : FunnelProbs) (d : SessionDraws) (sid : String) (eid : ℕ → String) :
    ((simulate_user_session uid { info with is_bot := false } start_time probs d sid
        eid).countP (fun e => e.event_type = "add_to_cart") ≤
      (simulate_user_session uid { info with is_bot := false } start_time probs d sid
        eid).countP (fun e => e.event_type = "product_view")) ∧
    ((simulate_user_session uid { info with is_bot := false } start_time probs d sid
        eid).filter (fun e => e.event_type = "add_to_cart")).Forall
      (fun e => e.product_id ∈ viewed_products
        (simulate_user_session uid { info with is_bot := false } start_time probs d sid
          eid)) := by
  obtain ⟨l1, l2, l3, l4, l5, hsim, hlen1, hlen4, hlen5, hf1, hf2, hf3, hf4, hf5, hlen3,
    hgate2, hgate3, hgate4, hgate5, hts⟩ :=
    simulate_decomp uid { info with is_bot := false } start_time probs d sid eid rfl
  rw [hsim]
  have hview12 : (viewed_products (l1 ++ l2)).length = l2.length := by
    rw [viewed_products_length, List.countP_append,
      countP_type_zero l1 "product_view" (fun e he => ne_of_type_eq (hf1 e he).1 (by decide)),
      countP_type_length l2 "product_view" (fun e he => (hf2 e he).1)]
    omega
  constructor
  · simp only [List.countP_append]
    rw [countP_type_zero l1 "add_to_cart" (fun e he => ne_of_type_eq (hf1 e he).1 (by decide)),
      countP_type_zero l2 "add_to_cart" (fun e he => ne_of_type_eq (hf2 e he).1 (by decide)),
      countP_type_length l3 "add_to_cart" (fun e he => (hf3 e he).1),
      countP_type_zero l4 "add_to_cart" (fun e he => ne_of_type_eq (hf4 e he).1 (by decide)),
      countP_type_zero l5 "add_to_cart" (fun e he => ne_of_type_eq (hf5 e he).1 (by decide)),
      countP_type_zero l1 "product_view" (fun e he => ne_of_type_eq (hf1 e he).1 (by decide)),
      countP_type_length l2 "product_view" (fun e he => (hf2 e he).1),
      countP_type_zero l3 "product_view" (fun e he => ne_of_type_eq (hf3 e he).1 (by decide)),
      countP_type_zero l4 "product_view" (fun e he => ne_of_type_eq (hf4 e he).1 (by decide)),
      countP_type_zero l5 "product_view" (fun e he => ne_of_type_eq (hf5 e he).1 (by decide))]
    have := hlen3
    rw [hview12] at this
    omega
  · rw [List.forall_iff_forall_mem]
    intro e he
    rw [List.filter_append, List.filter_append, List.filter_append, List.filter_append,
      filter_type_nil l1 "add_to_cart" (fun e he => ne_of_type_eq (hf1 e he).1 (by decide)),
      filter_type_nil l2 "add_to_cart" (fun e he => ne_of_type_eq (hf2 e he).1 (by decide)),
      filter_type_all l3 "add_to_cart" (fun e he => (hf3 e he).1),
      filter_type_nil l4 "add_to_cart" (fun e he => ne_of_type_eq (hf4 e he).1 (by decide)),
      filter_type_nil l5 "add_to_cart" (fun e he => ne_of_type_eq (hf5 e he).1 (by decide))]
      at he
    simp only [List.nil_append, List.append_nil] at he
    have hmem := (hf3 e he).2.2
    rw [viewed_products_append] at hmem
    rw [viewed_products_append, viewed_products_append, viewed_products_append,
      viewed_products_append]
    exact List.mem_append_left _ (List.mem_append_left _ (List.mem_append_left _ hmem))

/-- C6: both noise-injection passes (missing-ID and duplicate-ID)
change only the `session_id` field: erasing `session_id`, the event
collection is unchanged row-for-row (same length, same order, every
other field — `event_id`, `event_type`, `ts`, `user_id`,
`product_id`, ... — identical). -/
theorem c6_noise_touches_only_session_id (missing dup : ℕ → Bool) (src : ℕ → ℕ)
    (events : List Event) :
    (inject_noise missing dup src events).map erase_session = events.map erase_session := by
  unfold inject_noise
  rw [apply_duplicate_noise_map, apply_missing_noise_map]

/-- C8 (amended): the checkout gate uses the session's
`funnel_probs["checkout"]` threshold unmodified for every device —
there is no mobile `×0.95` adjustment.  It fires (adding exactly one
event) iff an `add_to_cart` event exists and the checkout draw is
below that device-independent threshold. -/
theorem c8_checkout_gate_amended (uid : ℤ) (info : UserInfo) (probs : FunnelProbs)
    (d : SessionDraws) (sid : String) (eid : ℕ → String) (st : SimState) :
    (stage_checkout uid info probs d sid eid st).events.length =
      if st.events.any (fun e => e.event_type = "add_to_cart") = true ∧
          d.u_checkout < probs.checkout
      then st.events.length + 1 else st.events.length := by
  by_cases hcond : (st.events.any (fun e => e.event_type = "add_to_cart") = true ∧
      d.u_checkout < probs.checkout)
  · rw [if_pos hcond]
    unfold stage_checkout
    rw [if_pos hcond]
    simp
  · rw [if_neg hcond]
    unfold stage_checkout
    rw [if_neg hcond]

/-- C2 (amended): the stored `price` field is the post-discount total
(`round(base_total - discount_amount, 2)`), and it is this value —
not `price - discount_amount` — that the clamp keeps at or above
`MIN_PRICE`: every generated order has `price ≥ MIN_PRICE`,
equivalently (pre-discount total) − discount_amount ≥ MIN_PRICE. -/
theorem c2_price_floor_amended (event : Event) (d : OrderDraws) (oid : String) :
    MIN_PRICE ≤ (generate_order event d oid).price := by
  unfold generate_order
  dsimp only
  have hup : MIN_PRICE ≤ round2 (np_clip d.raw_price MIN_PRICE MAX_PRICE) := by
    nth_rewrite 1 [← round2_min_price]
    apply round2_le_round2
    unfold np_clip
    apply le_min
    · exact le_max_right _ _
    · unfold MIN_PRICE MAX_PRICE
      norm_num
  have hq1 : (1:ℚ) ≤ ((quantity_choice d.u_quantity : ℕ) : ℚ) := by
    exact_mod_cast quantity_choice_pos d.u_quantity
  have hup0 : 0 ≤ round2 (np_clip d.raw_price MIN_PRICE MAX_PRICE) := by
    have : (0:ℚ) < MIN_PRICE := by
      unfold MIN_PRICE
      norm_num
    linarith
  have hbase : MIN_PRICE ≤ round2 (np_clip d.raw_price MIN_PRICE MAX_PRICE) *
      ((quantity_choice d.u_quantity : ℕ) : ℚ) := by
    calc MIN_PRICE ≤ round2 (np_clip d.raw_price MIN_PRICE MAX_PRICE) := hup
    _ ≤ round2 (np_clip d.raw_price MIN_PRICE MAX_PRICE) *
        ((quantity_choice d.u_quantity : ℕ) : ℚ) := le_mul_of_one_le_right hup0 hq1
  set base := round2 (np_clip d.raw_price MIN_PRICE MAX_PRICE) *
    ((quantity_choice d.u_quantity : ℕ) : ℚ) with hbase_def
  split_ifs with h1 h2
  · have hmax : max 0 (base - MIN_PRICE) = base - MIN_PRICE :=
      max_eq_right (by linarith)
    rw [hmax]
    have hself : base - (base - MIN_PRICE) = MIN_PRICE := by ring
    rw [hself, round2_min_price]
  · nth_rewrite 1 [← round2_min_price]
    apply round2_le_round2
    linarith
  · nth_rewrite 1 [← round2_min_price]
    apply round2_le_round2
    linarith

/-- C7: with zero purchase events the order synthesizer does not fail
and returns an empty collection, but the schema of that empty
DataFrame (line 457) lacks the `quantity` and `discount_amount`
columns that every non-empty orders DataFrame has — the claim's
"same schema" requirement is violated by the code. -/
theorem c7_empty_orders_schema (draws : ℕ → OrderDraws) (oids : ℕ → String) :
    generate_orders [] draws oids = [] ∧
    generate_orders_schema [] = EMPTY_ORDERS_COLUMNS ∧
    EMPTY_ORDERS_COLUMNS.contains "quantity" = false ∧
    ORDER_RECORD_COLUMNS.contains "quantity" = true ∧
    EMPTY_ORDERS_COLUMNS.contains "discount_amount" = false ∧
    ORDER_RECORD_COLUMNS.contains "discount_amount" = true := by
  refine ⟨?_, ?_, ?_, ?_, ?_, ?_⟩ <;> rfl

/-- C1 (amended): with the seeded draws fixed, everything except the
uuid-generated identifier fields is reproducible: the simulator's
output is identical after erasing `event_id`/`session_id` under any
two uuid supplies, and the order collection is identical after
erasing `order_id` under any two uuid supplies.  The uuid fields
themselves come from `uuid.uuid4()`, which does not read the seeded
numpy PRNG, so they are not functions of the seed. -/
theorem c1_determinism_amended (uid : ℤ) (info : UserInfo) (start_time : ℚ)
    (probs : FunnelProbs) (d : SessionDraws) (sid1 sid2 : String) (eid1 eid2 : ℕ → String)
    (events : List Event) (od : ℕ → OrderDraws) (oids1 oids2 : ℕ → String) :
    (simulate_user_session uid info start_time probs d sid1 eid1).map eraseIds =
      (simulate_user_session uid info start_time probs d sid2 eid2).map eraseIds ∧
    (generate_orders events od oids1).map erase_order_id =
      (generate_orders events od oids2).map erase_order_id := by
  constructor
  · unfold simulate_user_session
    by_cases hb : info.is_bot
    · rw [if_pos hb, if_pos hb]
      exact bot_session_events_erase uid info start_time d sid1 sid2 eid1 eid2
    · rw [if_neg hb, if_neg hb]
      obtain ⟨h1e, h1t⟩ := stage_visit_erase uid info start_time probs d sid1 sid2 eid1 eid2
      obtain ⟨h2e, h2t⟩ := stage_view_erase uid info probs d sid1 sid2 eid1 eid2 h1e h1t
      obtain ⟨h3e, h3t⟩ := stage_cart_erase uid info probs d sid1 sid2 eid1 eid2 h2e h2t
      obtain ⟨h4e, h4t⟩ := stage_checkout_erase uid info probs d sid1 sid2 eid1 eid2 h3e h3t
      exact (stage_purchase_erase uid info probs d sid1 sid2 eid1 eid2 h4e h4t).1
  · unfold generate_orders
    rw [List.map_map, List.map_map]
    apply List.map_congr_left
    intro p _
    rfl

/-- C1 (counterexample): two runs over the same seeded draws whose
uuid supplies differ — as real runs do, since `uuid.uuid4()` ignores
`np.random.seed` — give Event collections differing in every
`session_id`: one run's column is five copies of its uuid `"a"`, the
other's five copies of `"b"`, and those values are unequal. -/
theorem c1_determinism_counterexample :
    ((simulate_user_session 1 demo_user 0 FUNNEL_PROBS demo_draws "a"
        (fun _ => "e")).map (fun e => e.session_id) = List.replicate 5 (some "a")) ∧
    ((simulate_user_session 1 demo_user 0 FUNNEL_PROBS demo_draws "b"
        (fun _ => "e")).map (fun e => e.session_id) = List.replicate 5 (some "b")) ∧
    (("a" : String) == "b") = false := by
  refine ⟨?_, ?_, by decide⟩ <;>
    norm_num +decide [simulate_user_session, stage_visit, stage_view, stage_cart,
      stage_checkout, stage_purchase, viewed_products, cart_products, np_choice, randint,
      get_product_category, N_PRODUCTS, PRODUCT_CATEGORIES, FUNNEL_PROBS, demo_user,
      demo_draws, List.range_succ, List.replicate]

/-- C2 (counterexample): the stored `price` is the post-discount
total, so `price − discount_amount` subtracts the discount twice: a
paid-source purchase with unit price 15.00, quantity 1 and a 20%
discount stores `price = 12.00`, `discount_amount = 3.00`, and
`12.00 − 3.00 = 9.00 < 9.99 = MIN_PRICE`. -/
theorem c2_price_floor_counterexample :
    (generate_order demo_purchase_event demo_order_draws "o").price -
      (generate_order demo_purchase_event demo_order_draws "o").discount_amount <
      MIN_PRICE := by
  norm_num +decide [generate_order, round2, np_clip, quantity_choice, MIN_PRICE, MAX_PRICE,
    demo_purchase_event, demo_order_draws, round_eq]

/-- C3 (counterexample): in the final, noise-injected collection the
gating invariant can fail: corrupting (only) the `session_id` of the
checkout event of a full-funnel session — the missing-ID pass hitting
row index 3 — leaves the session with a `purchase` event and zero
`checkout` events. -/
theorem c3_funnel_gating_counterexample :
    ((inject_noise (fun i => i == 3) (fun _ => false) (fun _ => 0)
        (simulate_user_session 1 demo_user 0 FUNNEL_PROBS demo_draws "s"
          (fun _ => "e"))).filter (fun e => e.session_id == some "s")).any
      (fun e => e.event_type = "purchase") = true ∧
    ((inject_noise (fun i => i == 3) (fun _ => false) (fun _ => 0)
        (simulate_user_session 1 demo_user 0 FUNNEL_PROBS demo_draws "s"
          (fun _ => "e"))).filter (fun e => e.session_id == some "s")).countP
      (fun e => e.event_type = "checkout") = 0 := by
  constructor <;>
    norm_num +decide [simulate_user_session, stage_visit, stage_view, stage_cart,
      stage_checkout, stage_purchase, viewed_products, cart_products, np_choice, randint,
      get_product_category, N_PRODUCTS, PRODUCT_CATEGORIES, FUNNEL_PROBS, demo_user,
      demo_draws, List.range_succ, inject_noise, apply_missing_noise, apply_duplicate_noise,
      set_session_id, List.countP_cons]

/-- C3 (witness for the amended theorem): on a concrete full-funnel
session, each gating implication fires with a true antecedent. -/
theorem c3_funnel_gating_pre_noise_witness :
    (simulate_user_session 1 demo_user 0 FUNNEL_PROBS demo_draws "s" (fun _ => "e")).any
      (fun e => e.event_type = "product_view") = true ∧
    (simulate_user_session 1 demo_user 0 FUNNEL_PROBS demo_draws "s" (fun _ => "e")).any
      (fun e => e.event_type = "add_to_cart") = true ∧
    (simulate_user_session 1 demo_user 0 FUNNEL_PROBS demo_draws "s" (fun _ => "e")).countP
      (fun e => e.event_type = "checkout") = 1 :=
  ⟨(c3_funnel_gating_pre_noise 1 demo_user 0 FUNNEL_PROBS demo_draws "s" (fun _ => "e")).1
      (by norm_num +decide [simulate_user_session, stage_visit, stage_view, stage_cart,
        stage_checkout, stage_purchase, viewed_products, cart_products, np_choice, randint,
        get_product_category, N_PRODUCTS, PRODUCT_CATEGORIES, FUNNEL_PROBS, demo_user,
        demo_draws, List.range_succ]),
    (c3_funnel_gating_pre_noise 1 demo_user 0 FUNNEL_PROBS demo_draws "s" (fun _ => "e")).2.1
      (by norm_num +decide [simulate_user_session, stage_visit, stage_view, stage_cart,
        stage_checkout, stage_purchase, viewed_products, cart_products, np_choice, randint,
        get_product_category, N_PRODUCTS, PRODUCT_CATEGORIES, FUNNEL_PROBS, demo_user,
        demo_draws, List.range_succ]),
    (c3_funnel_gating_pre_noise 1 demo_user 0 FUNNEL_PROBS demo_draws "s" (fun _ => "e")).2.2
      (by norm_num +decide [simulate_user_session, stage_visit, stage_view, stage_cart,
        stage_checkout, stage_purchase, viewed_products, cart_products, np_choice, randint,
        get_product_category, N_PRODUCTS, PRODUCT_CATEGORIES, FUNNEL_PROBS, demo_user,
        demo_draws, List.range_succ])⟩

/-- C4 (counterexample): a bot session is a generated session yet
contains zero `visit` events (here: two events, both `product_view`),
refuting "every generated session contains exactly one visit". -/
theorem c4_visit_counterexample :
    (simulate_user_session 7 demo_bot_user 0 FUNNEL_PROBS demo_draws "s"
      (fun _ => "e")).length = 2 ∧
    (simulate_user_session 7 demo_bot_user 0 FUNNEL_PROBS demo_draws "s"
      (fun _ => "e")).countP (fun e => e.event_type = "visit") = 0 := by
  constructor <;>
    norm_num +decide [simulate_user_session, bot_session_events, np_choice, randint,
      N_PRODUCTS, demo_bot_user, demo_user, demo_draws, List.range_succ, List.countP_cons]

/-- C4 (witness for the amended theorem): the amended statement
applied to a concrete non-bot session whose gaps are all zero. -/
theorem c4_visit_first_amended_witness :
    demo_user.is_bot = false ∧ (0:ℚ) ≤ demo_draws.visit_gap ∧
    (simulate_user_session 1 demo_user 0 FUNNEL_PROBS demo_draws "s" (fun _ => "e") = [] ∨
      ∃ v : Event,
        (simulate_user_session 1 demo_user 0 FUNNEL_PROBS demo_draws "s"
          (fun _ => "e")).head? = some v ∧
        v.event_type = "visit" ∧ v.ts = 0 ∧
        (simulate_user_session 1 demo_user 0 FUNNEL_PROBS demo_draws "s"
          (fun _ => "e")).countP (fun e => e.event_type = "visit") = 1 ∧
        ∀ e ∈ simulate_user_session 1 demo_user 0 FUNNEL_PROBS demo_draws "s"
          (fun _ => "e"), v.ts ≤ e.ts) :=
  ⟨rfl, le_refl 0,
    c4_visit_first_amended 1 demo_user 0 FUNNEL_PROBS demo_draws "s" (fun _ => "e") rfl
      (le_refl 0) (le_refl 0) (le_refl 0) (le_refl 0)⟩

/-- C8 (counterexample): a mobile-device session whose checkout draw
is `0.29` — at or above the claimed mobile-adjusted threshold
`0.95 × 0.30 = 0.285` — still emits a checkout event, because the
code compares the draw to the unmodified `0.30` threshold. -/
theorem c8_mobile_checkout_counterexample :
    demo_user.device = "mobile" ∧
    (simulate_user_session 1 demo_user 0 FUNNEL_PROBS demo_draws "s" (fun _ => "e")).any
      (fun e => e.event_type = "checkout") = true ∧
    (95 / 100 : ℚ) * FUNNEL_PROBS.checkout ≤ demo_draws.u_checkout := by
  refine ⟨rfl, ?_, ?_⟩
  · norm_num +decide [simulate_user_session, stage_visit, stage_view, stage_cart,
      stage_checkout, stage_purchase, viewed_products, cart_products, np_choice, randint,
      get_product_category, N_PRODUCTS, PRODUCT_CATEGORIES, FUNNEL_PROBS, demo_user,
      demo_draws, List.range_succ]
  · norm_num [FUNNEL_PROBS, demo_draws]

/-- C9 (counterexample): a bot event carries a non-null `product_id`
(here `1`) but no `product_category` field at all (`none` in the
collection), instead of the claimed mapping value `"electronics"`. -/
theorem c9_product_category_counterexample :
    ((simulate_user_session 7 demo_bot_user 0 FUNNEL_PROBS demo_draws "s"
        (fun _ => "e")).head?.map (fun e => (e.product_id, e.product_category)) =
      some (some 1, none)) ∧
    get_product_category (some 1) = some "electronics" := by
  constructor
  · norm_num +decide [simulate_user_session, bot_session_events, np_choice, randint,
      N_PRODUCTS, demo_bot_user, demo_user, demo_draws, List.range_succ]
  · decide

end DataGen
